import Mathlib

/-!
Shallow embedding of `LedgerDatabaseImpl`
(`src/vendor/bat-native-ledger/src/bat/ledger/internal/ledger_database_impl.cc`).

The C++ class drives an embedded SQLite database (`sql::Database`,
`sql::MetaTable`, `sql::Statement`, `sql::Transaction`) with batches of mojom
commands.  The embedding models:

* the mojom value/command/response data model as inductive types;
* the connection-local state (`db_.is_open()`, `initialized_`, whether the
  `meta_table_` object is attached to the database, the registered memory
  pressure listener) together with the durable database contents as an
  explicit `ConnState` record;
* the sql library calls whose outcomes depend on the storage engine
  (`Open`, `Transaction::Begin/Commit`, `MetaTable::Init` low-level failure,
  `Database::Execute`, `Statement::Run`, the rows yielded by
  `Statement::Step`, and the legacy typed column accessors) as an `Env`
  oracle of uninterpreted outcome functions;
* the durable database contents as the reserved meta table (present or not,
  holding version / compatible version) plus an opaque `data` component that
  the caller-issued SQL reads and writes through the oracle.

Transactionality is explicit: the command loop threads a working `ConnState`;
a rollback restores only the durable `db` component (the in-memory members
`initialized_`, the meta-table attachment and the listener are not part of the
SQL transaction, exactly as in the C++).  `Statement::Step` returning false on
either exhaustion or a stepping error is modelled by the oracle yielding the
finite list of successfully stepped rows.  Statement parameter binding
(`HandleBinding`) happens below this abstraction: the oracle functions take
the full binding list of a command.  The outputs of `RunTransaction` are
instrumented with counters (commands dispatched, Begin/Commit invoked, VACUUM
executions) so that control-flow properties of the source are observable.
-/

namespace Ledger

/-- Double payloads (`double_value`) are moved by the code but never
inspected; they are modelled as an opaque wrapper. -/
structure Dbl where
  val : Int
deriving DecidableEq

/-- mojom DBValue: tagged union of scalar database values. -/
inductive DBValue
  | string_value (s : String)
  | int_value (i : Int)
  | int64_value (i : Int)
  | double_value (d : Dbl)
  | bool_value (b : Bool)
  | null_value (i : Int)
deriving DecidableEq

/-- mojom DBCommandBinding: positional parameter binding. -/
structure DBCommandBinding where
  index : Int
  value : DBValue
deriving DecidableEq

/-- mojom DBCommand RecordBindingType (legacy explicit column typing). -/
inductive RecordBindingType
  | STRING_TYPE
  | INT_TYPE
  | INT64_TYPE
  | DOUBLE_TYPE
  | BOOL_TYPE
deriving DecidableEq

/-- mojom DBCommand Type. -/
inductive CommandType
  | INITIALIZE
  | READ
  | EXECUTE
  | RUN
  | MIGRATE
  | VACUUM
  | CLOSE
deriving DecidableEq

/-- mojom DBCommand. -/
structure DBCommand where
  type : CommandType
  command : String
  bindings : List DBCommandBinding
  record_bindings : List RecordBindingType
deriving DecidableEq

/-- mojom DBTransaction: one batch of commands plus schema version data. -/
structure DBTransaction where
  version : Int
  compatible_version : Int
  commands : List DBCommand
deriving DecidableEq

/-- mojom DBCommandResponse Status. -/
inductive Status
  | RESPONSE_OK
  | INITIALIZATION_ERROR
  | TRANSACTION_ERROR
  | COMMAND_ERROR
  | RESPONSE_ERROR
deriving DecidableEq

/-- mojom DBCommandResult: a scalar value or a list of records (each record
is its ordered list of field values). -/
inductive DBCommandResult
  | value (v : DBValue)
  | records (rs : List (List DBValue))
deriving DecidableEq

/-- mojom DBCommandResponse (the out-parameter object mutated by the C++). -/
structure DBCommandResponse where
  status : Status
  result : Option DBCommandResult
deriving DecidableEq

/-- A SQLite runtime column value, as classified by
`sql::Statement::GetColumnType`. -/
inductive SqlValue
  | integer (i : Int)
  | float (d : Dbl)
  | text (s : String)
  | blob (b : String)
  | null
deriving DecidableEq

/-- Durable database contents: the reserved meta table (with its stored
version and compatible version when it exists) and an opaque component for
all caller-defined tables. -/
structure DbState where
  metaTable : Option (Int × Int)
  data : Nat
deriving DecidableEq

/-- Connection-local state of one `LedgerDatabaseImpl`:
`dbOpen` = `db_.is_open()`, `init` = the `initialized_` member,
`metaAttached` = whether the `meta_table_` object is attached (reset by
`meta_table_.Reset()`), `listener` = whether the memory-pressure listener is
registered, `db` = durable database contents. -/
structure ConnState where
  dbOpen : Bool
  init : Bool
  metaAttached : Bool
  listener : Bool
  db : DbState
deriving DecidableEq

/-- Oracle for the sql library calls whose outcomes are decided by the
storage engine.  `execSql` models `sql::Database::Execute` followed by
`GetLastChangeCount` (`none` = failure); `runStmt` models preparing a
statement, binding the command's bindings and `sql::Statement::Run`;
`readStmt` yields the rows produced by successive successful
`sql::Statement::Step` calls (a stepping error or exhaustion simply ends the
list).  The `col*` functions are the legacy typed column accessors
(`ColumnString` etc.) applied to a stored value, uninterpreted here. -/
structure Env where
  openOk : Bool
  beginOk : Bool
  commitOk : Bool
  vacuumOk : Bool
  metaInitOk : Bool
  execSql : String → DbState → Option (DbState × Int)
  runStmt : String → List DBCommandBinding → DbState → Option (DbState × Int)
  readStmt : String → List DBCommandBinding → DbState → List (List SqlValue)
  colString : SqlValue → String
  colInt : SqlValue → Int
  colInt64 : SqlValue → Int
  colDouble : SqlValue → Dbl
  colBool : SqlValue → Bool

/-- `sql::MetaTable::DoesTableExist`. -/
def DoesTableExist (db : DbState) : Bool :=
  db.metaTable.isSome

/-- `sql::MetaTable::Init`: when the meta table does not exist, create it
seeded with the given version / compatible version; when it exists, leave it
unchanged.  `none` models a low-level failure. -/
def MetaTableInit (env : Env) (db : DbState) (version compatible_version : Int) :
    Option DbState :=
  if env.metaInitOk then
    match db.metaTable with
    | none => some { db with metaTable := some (version, compatible_version) }
    | some _ => some db
  else none

/-- `sql::MetaTable::GetVersionNumber`: the stored version, 0 when the meta
table is missing. -/
def GetVersionNumber (db : DbState) : Int :=
  match db.metaTable with
  | none => 0
  | some p => p.1

/-- `sql::MetaTable::SetVersionNumber` (no-op when the table is missing, as
the underlying SQL write fails silently there). -/
def SetVersionNumber (db : DbState) (version : Int) : DbState :=
  { db with metaTable := db.metaTable.map (fun p => (version, p.2)) }

/-- `sql::MetaTable::SetCompatibleVersionNumber`. -/
def SetCompatibleVersionNumber (db : DbState) (compatible_version : Int) : DbState :=
  { db with metaTable := db.metaTable.map (fun p => (p.1, compatible_version)) }

/-- The explicit-typing loop of `CreateRecord` (the `record_bindings`
branch): one field per declared binding, read from the next column index
with the type-specific accessor. -/
def createFields (env : Env) (row : List SqlValue) :
    List RecordBindingType → Nat → List DBValue
  | [], _ => []
  | b :: bs, column =>
    let v := row.getD column SqlValue.null
    (match b with
     | RecordBindingType.STRING_TYPE => DBValue.string_value (env.colString v)
     | RecordBindingType.INT_TYPE => DBValue.int_value (env.colInt v)
     | RecordBindingType.INT64_TYPE => DBValue.int64_value (env.colInt64 v)
     | RecordBindingType.DOUBLE_TYPE => DBValue.double_value (env.colDouble v)
     | RecordBindingType.BOOL_TYPE => DBValue.bool_value (env.colBool v)) ::
      createFields env row bs (column + 1)

/-- `CreateRecord`: build one record from the current row.  Non-empty
`record_bindings` selects the legacy explicit mode; otherwise each column
0..count-1 is converted according to its runtime column type. -/
def CreateRecord (env : Env) (row : List SqlValue)
    (bindings : List RecordBindingType) : List DBValue :=
  if bindings.length > 0 then
    createFields env row bindings 0
  else
    row.map (fun v =>
      match v with
      | SqlValue.integer i => DBValue.int64_value i
      | SqlValue.float d => DBValue.double_value d
      | SqlValue.text s => DBValue.string_value s
      | SqlValue.blob b => DBValue.string_value b
      | SqlValue.null => DBValue.null_value 0)

/-- `LedgerDatabaseImpl::Initialize`.  The response pointer may be null
(`none`), in which case the method reports `RESPONSE_ERROR`.  On the first
call (`initialized_` false) it checks whether the meta table exists, runs
`MetaTable::Init`, reads the stored version back only when the table already
existed, marks the connection initialized and registers the memory-pressure
listener; afterwards it simply reads the stored version. -/
def Initialize (env : Env) (version compatible_version : Int) (st : ConnState)
    (resp : Option DBCommandResponse) :
    Status × ConnState × Option DBCommandResponse :=
  match resp with
  | none => (Status.RESPONSE_ERROR, st, none)
  | some r =>
    if st.init then
      let table_version := GetVersionNumber st.db
      let res := some (DBCommandResult.value (DBValue.int_value table_version))
      (Status.RESPONSE_OK, st, some { r with result := res })
    else
      let table_exists := DoesTableExist st.db
      match MetaTableInit env st.db version compatible_version with
      | none => (Status.INITIALIZATION_ERROR, st, some r)
      | some db1 =>
        let table_version := if table_exists then GetVersionNumber db1 else 0
        let res := some (DBCommandResult.value (DBValue.int_value table_version))
        (Status.RESPONSE_OK,
          { st with db := db1, init := true, metaAttached := true,
                    listener := true },
          some { r with result := res })

/-- `LedgerDatabaseImpl::Execute`: raw statement, no parameters; reports the
last change count on success. -/
def Execute (env : Env) (cmd : DBCommand) (st : ConnState)
    (resp : DBCommandResponse) : Status × ConnState × DBCommandResponse :=
  if st.init then
    match env.execSql cmd.command st.db with
    | none => (Status.COMMAND_ERROR, st, resp)
    | some (db1, changes) =>
      let res := some (DBCommandResult.value (DBValue.int_value changes))
      (Status.RESPONSE_OK, { st with db := db1 }, { resp with result := res })
  else (Status.INITIALIZATION_ERROR, st, resp)

/-- `LedgerDatabaseImpl::Run`: parameterized statement; all bindings are
applied, then the statement runs; reports the last change count on
success. -/
def Run (env : Env) (cmd : DBCommand) (st : ConnState)
    (resp : DBCommandResponse) : Status × ConnState × DBCommandResponse :=
  if st.init then
    match env.runStmt cmd.command cmd.bindings st.db with
    | none => (Status.COMMAND_ERROR, st, resp)
    | some (db1, changes) =>
      let res := some (DBCommandResult.value (DBValue.int_value changes))
      (Status.RESPONSE_OK, { st with db := db1 }, { resp with result := res })
  else (Status.INITIALIZATION_ERROR, st, resp)

/-- `LedgerDatabaseImpl::Read`: the uninitialized check comes first, then the
null checks on the command and the response; then the statement is prepared
and bound, and one record per stepped row is collected.  The status is
`RESPONSE_OK` whenever the checks pass. -/
def Read (env : Env) (cmd : Option DBCommand) (st : ConnState)
    (resp : Option DBCommandResponse) :
    Status × ConnState × Option DBCommandResponse :=
  if st.init then
    match cmd, resp with
    | some c, some r =>
      let rows := env.readStmt c.command c.bindings st.db
      let res := some (DBCommandResult.records
        (rows.map (fun row => CreateRecord env row c.record_bindings)))
      (Status.RESPONSE_OK, st, some { r with result := res })
    | _, _ => (Status.RESPONSE_ERROR, st, resp)
  else (Status.INITIALIZATION_ERROR, st, resp)

/-- `LedgerDatabaseImpl::Migrate`: unconditionally store the transaction's
version and compatible version in the meta table. -/
def Migrate (version compatible_version : Int) (st : ConnState) :
    Status × ConnState :=
  if st.init then
    let db1 := SetCompatibleVersionNumber (SetVersionNumber st.db version)
      compatible_version
    (Status.RESPONSE_OK, { st with db := db1 })
  else (Status.INITIALIZATION_ERROR, st)

/-- Output of dispatching one command inside the loop of
`RunTransaction`: the per-command status, the updated state and response,
and the `vacuum_requested` flag. -/
structure DispatchOut where
  status : Status
  st : ConnState
  resp : DBCommandResponse
  vacuumRequested : Bool
deriving DecidableEq

/-- The switch on `command->type` inside `RunTransaction`.  The response
passed to the methods is always non-null here (it is the loop's response
object); a CLOSE reaching the loop reports `COMMAND_ERROR`. -/
def dispatchCommand (env : Env) (txn : DBTransaction) (cmd : DBCommand)
    (st : ConnState) (resp : DBCommandResponse) (vac : Bool) : DispatchOut :=
  match cmd.type with
  | CommandType.INITIALIZE =>
    let r := Initialize env txn.version txn.compatible_version st (some resp)
    ⟨r.1, r.2.1, r.2.2.getD resp, vac⟩
  | CommandType.READ =>
    let r := Read env (some cmd) st (some resp)
    ⟨r.1, r.2.1, r.2.2.getD resp, vac⟩
  | CommandType.EXECUTE =>
    let r := Execute env cmd st resp
    ⟨r.1, r.2.1, r.2.2, vac⟩
  | CommandType.RUN =>
    let r := Run env cmd st resp
    ⟨r.1, r.2.1, r.2.2, vac⟩
  | CommandType.MIGRATE =>
    let r := Migrate txn.version txn.compatible_version st
    ⟨r.1, r.2, resp, vac⟩
  | CommandType.VACUUM => ⟨Status.RESPONSE_OK, st, resp, true⟩
  | CommandType.CLOSE => ⟨Status.COMMAND_ERROR, st, resp, vac⟩

/-- Output of the command loop: the first non-Ok status (or Ok), the working
state and response, the accumulated `vacuum_requested` flag, and how many
commands were dispatched. -/
structure LoopOut where
  status : Status
  st : ConnState
  resp : DBCommandResponse
  vacuumRequested : Bool
  dispatched : Nat
deriving DecidableEq

/-- The command loop of `RunTransaction`: dispatch each command in order,
stopping at the first non-Ok per-command status. -/
def runCommands (env : Env) (txn : DBTransaction) :
    List DBCommand → ConnState → DBCommandResponse → Bool → LoopOut
  | [], st, resp, vac => ⟨Status.RESPONSE_OK, st, resp, vac, 0⟩
  | cmd :: rest, st, resp, vac =>
    let d := dispatchCommand env txn cmd st resp vac
    if d.status = Status.RESPONSE_OK then
      let out := runCommands env txn rest d.st d.resp d.vacuumRequested
      { out with dispatched := out.dispatched + 1 }
    else ⟨d.status, d.st, d.resp, d.vacuumRequested, 1⟩

/-- The special-case test of `RunTransaction`: the batch is exactly one
CLOSE command. -/
def isSoleClose (txn : DBTransaction) : Bool :=
  match txn.commands with
  | [c] => c.type = CommandType.CLOSE
  | _ => false

/-- Observable outcome of `RunTransaction`: the final connection state, the
response object (`none` when the caller passed a null pointer), and
instrumentation: how many commands the loop dispatched, whether
`Transaction::Begin` and `Transaction::Commit` were invoked, and how many
times VACUUM was executed. -/
structure RunOut where
  st : ConnState
  resp : Option DBCommandResponse
  dispatched : Nat
  beginTried : Bool
  commitTried : Bool
  vacuumRuns : Nat
deriving DecidableEq

/-- `LedgerDatabaseImpl::RunTransaction`.  Null response → immediate return.
Then: open the database if needed (failure → `INITIALIZATION_ERROR`); the
sole-CLOSE special case closes the connection, resets the meta table object
and the `initialized_` flag and reports Ok; otherwise Begin (failure →
`TRANSACTION_ERROR`), run the loop, roll back the durable state and report
the failing status on first failure, Commit (failure → `TRANSACTION_ERROR`),
and finally run VACUUM once if requested — its success or failure
(`env.vacuumOk`) is only logged.  On the fully successful path the C++ never
assigns `command_response->status`, so the response keeps its incoming
status. -/
def RunTransaction (env : Env) (txn : DBTransaction) (st : ConnState)
    (resp : Option DBCommandResponse) : RunOut :=
  match resp with
  | none => ⟨st, none, 0, false, false, 0⟩
  | some r =>
    if !st.dbOpen && !env.openOk then
      ⟨st, some { r with status := Status.INITIALIZATION_ERROR },
        0, false, false, 0⟩
    else
      let st1 := if st.dbOpen then st else { st with dbOpen := true }
      if isSoleClose txn then
        ⟨{ st1 with dbOpen := false, metaAttached := false, init := false },
          some { r with status := Status.RESPONSE_OK }, 0, false, false, 0⟩
      else if !env.beginOk then
        ⟨st1, some { r with status := Status.TRANSACTION_ERROR },
          0, true, false, 0⟩
      else
        let out := runCommands env txn txn.commands st1 r false
        if out.status = Status.RESPONSE_OK then
          if env.commitOk then
            if out.vacuumRequested then
              ⟨out.st, some out.resp, out.dispatched, true, true, 1⟩
            else
              ⟨out.st, some out.resp, out.dispatched, true, true, 0⟩
          else
            ⟨{ out.st with db := st1.db },
              some { out.resp with status := Status.TRANSACTION_ERROR },
              out.dispatched, true, true, 0⟩
        else
          ⟨{ out.st with db := st1.db },
            some { out.resp with status := out.status },
            out.dispatched, true, false, 0⟩

/-! ### Concrete inputs used to evaluate the development on closed terms -/

/-- A concrete oracle on which every storage-engine call succeeds. -/
def envW : Env :=
  { openOk := true, beginOk := true, commitOk := true, vacuumOk := true,
    metaInitOk := true,
    execSql := fun _ db => some (db, 1),
    runStmt := fun _ _ db => some (db, 1),
    readStmt := fun _ _ _ => [[SqlValue.integer 7, SqlValue.null]],
    colString := fun _ => "",
    colInt := fun _ => 0,
    colInt64 := fun _ => 0,
    colDouble := fun _ => ⟨0⟩,
    colBool := fun _ => false }

/-- The concrete oracle with a failing `Transaction::Begin`. -/
def envBF : Env := { envW with beginOk := false }

/-- A brand-new database: no meta table. -/
def dbFresh : DbState := ⟨none, 0⟩

/-- A database whose meta table stores version 3, compatible version 2. -/
def dbMeta : DbState := ⟨some (3, 2), 0⟩

/-- Open but uninitialized connection over a brand-new database. -/
def stW : ConnState := ⟨true, false, false, false, dbFresh⟩

/-- Open, initialized connection over `dbMeta`. -/
def stInitW : ConnState := ⟨true, true, true, true, dbMeta⟩

/-- A default-constructed response (mojom default status is RESPONSE_OK). -/
def respW : DBCommandResponse := ⟨Status.RESPONSE_OK, none⟩

/-- Concrete commands of each relevant type. -/
def cmdInitW : DBCommand := ⟨CommandType.INITIALIZE, "", [], []⟩

def cmdReadW : DBCommand := ⟨CommandType.READ, "", [], []⟩

def cmdRunW : DBCommand := ⟨CommandType.RUN, "", [], []⟩

def cmdVacuumW : DBCommand := ⟨CommandType.VACUUM, "", [], []⟩

def cmdCloseW : DBCommand := ⟨CommandType.CLOSE, "", [], []⟩

/-! ### Helper lemmas about the dispatch switch and the command loop -/

/-- With a non-null response, Initialize only writes the result field of
the response, never its status. -/
theorem Initialize_resp_status (env : Env) (v cv : Int) (st : ConnState)
    (r : DBCommandResponse) :
    (( Initialize env v cv st (some r)).2.2.getD r).status = r.status := by
  unfold Initialize
  cases hinit : st.init
  · cases hmi : MetaTableInit env st.db v cv <;> simp [hinit, hmi]
  · simp [hinit]

/-- With a non-null response, Initialize never reports RESPONSE_ERROR. -/
theorem Initialize_status_ne_response_error (env : Env) (v cv : Int)
    (st : ConnState) (r : DBCommandResponse) :
    ( Initialize env v cv st (some r)).1 ≠ Status.RESPONSE_ERROR := by
  unfold Initialize
  cases hinit : st.init
  · cases hmi : MetaTableInit env st.db v cv <;> simp [hinit, hmi]
  · simp [hinit]

/-- Read only writes the result field of the response. -/
theorem Read_resp_status (env : Env) (cmd : DBCommand) (st : ConnState)
    (r : DBCommandResponse) :
    ((Read env (some cmd) st (some r)).2.2.getD r).status = r.status := by
  unfold Read
  cases hinit : st.init <;> simp [hinit]

/-- With a non-null command and response, Read never reports
RESPONSE_ERROR. -/
theorem Read_status_ne_response_error (env : Env) (cmd : DBCommand)
    (st : ConnState) (r : DBCommandResponse) :
    (Read env (some cmd) st (some r)).1 ≠ Status.RESPONSE_ERROR := by
  unfold Read
  cases hinit : st.init <;> simp [hinit]

/-- Execute only writes the result field of the response. -/
theorem Execute_resp_status (env : Env) (cmd : DBCommand) (st : ConnState)
    (r : DBCommandResponse) :
    (Execute env cmd st r).2.2.status = r.status := by
  unfold Execute
  cases hinit : st.init
  · simp [hinit]
  · rcases he : env.execSql cmd.command st.db with _ | ⟨db1, ch⟩ <;>
      simp [hinit, he]

/-- Execute never reports RESPONSE_ERROR. -/
theorem Execute_status_ne_response_error (env : Env) (cmd : DBCommand)
    (st : ConnState) (r : DBCommandResponse) :
    (Execute env cmd st r).1 ≠ Status.RESPONSE_ERROR := by
  unfold Execute
  cases hinit : st.init
  · simp [hinit]
  · rcases he : env.execSql cmd.command st.db with _ | ⟨db1, ch⟩ <;>
      simp [hinit, he]

/-- Run only writes the result field of the response. -/
theorem Run_resp_status (env : Env) (cmd : DBCommand) (st : ConnState)
    (r : DBCommandResponse) :
    (Run env cmd st r).2.2.status = r.status := by
  unfold Run
  cases hinit : st.init
  · simp [hinit]
  · rcases he : env.runStmt cmd.command cmd.bindings st.db with _ | ⟨db1, ch⟩ <;>
      simp [hinit, he]

/-- Run never reports RESPONSE_ERROR. -/
theorem Run_status_ne_response_error (env : Env) (cmd : DBCommand)
    (st : ConnState) (r : DBCommandResponse) :
    (Run env cmd st r).1 ≠ Status.RESPONSE_ERROR := by
  unfold Run
  cases hinit : st.init
  · simp [hinit]
  · rcases he : env.runStmt cmd.command cmd.bindings st.db with _ | ⟨db1, ch⟩ <;>
      simp [hinit, he]

/-- Migrate never reports RESPONSE_ERROR. -/
theorem Migrate_status_ne_response_error (v cv : Int) (st : ConnState) :
    (Migrate v cv st).1 ≠ Status.RESPONSE_ERROR := by
  unfold Migrate
  cases hinit : st.init <;> simp [hinit]

/-- Dispatching a command never changes the status field of the response
object: the methods only write the result field; the per-command status is
the loop-local variable. -/
theorem dispatch_resp_status (env : Env) (txn : DBTransaction)
    (cmd : DBCommand) (st : ConnState) (resp : DBCommandResponse)
    (vac : Bool) :
    (dispatchCommand env txn cmd st resp vac).resp.status = resp.status := by
  unfold dispatchCommand
  cases hty : cmd.type <;> simp only [] <;>
    first
      | rfl
      | exact Initialize_resp_status env txn.version txn.compatible_version
          st resp
      | exact Read_resp_status env cmd st resp
      | exact Execute_resp_status env cmd st resp
      | exact Run_resp_status env cmd st resp

/-- No per-command status produced by the dispatch switch is
RESPONSE_ERROR: the loop always hands the methods a non-null command and a
non-null response. -/
theorem dispatch_status_ne_response_error (env : Env) (txn : DBTransaction)
    (cmd : DBCommand) (st : ConnState) (resp : DBCommandResponse)
    (vac : Bool) :
    (dispatchCommand env txn cmd st resp vac).status ≠
      Status.RESPONSE_ERROR := by
  unfold dispatchCommand
  cases hty : cmd.type <;> simp only [] <;>
    first
      | decide
      | exact Initialize_status_ne_response_error env txn.version
          txn.compatible_version st resp
      | exact Read_status_ne_response_error env cmd st resp
      | exact Execute_status_ne_response_error env cmd st resp
      | exact Run_status_ne_response_error env cmd st resp
      | exact Migrate_status_ne_response_error txn.version
          txn.compatible_version st

/-- On an uninitialized connection, dispatching a READ, EXECUTE, RUN or
MIGRATE command is a pure failure: status INITIALIZATION_ERROR and no change
to the state, the response or the vacuum flag. -/
theorem dispatch_uninitialized (env : Env) (txn : DBTransaction)
    (cmd : DBCommand) (st : ConnState) (resp : DBCommandResponse) (vac : Bool)
    (htype : cmd.type = CommandType.READ ∨ cmd.type = CommandType.EXECUTE ∨
      cmd.type = CommandType.RUN ∨ cmd.type = CommandType.MIGRATE)
    (hinit : st.init = false) :
    dispatchCommand env txn cmd st resp vac =
      ⟨Status.INITIALIZATION_ERROR, st, resp, vac⟩ := by
  unfold dispatchCommand Read Execute Run Migrate
  rcases htype with h | h | h | h <;> rw [h] <;> simp [hinit]

/-- The loop on an empty list. -/
theorem runCommands_nil (env : Env) (txn : DBTransaction) (st : ConnState)
    (resp : DBCommandResponse) (vac : Bool) :
    runCommands env txn [] st resp vac =
      ⟨Status.RESPONSE_OK, st, resp, vac, 0⟩ := rfl

/-- The loop when the head command dispatches successfully. -/
theorem runCommands_cons_ok (env : Env) (txn : DBTransaction)
    (cmd : DBCommand) (rest : List DBCommand) (st : ConnState)
    (resp : DBCommandResponse) (vac : Bool)
    (h : (dispatchCommand env txn cmd st resp vac).status = Status.RESPONSE_OK) :
    runCommands env txn (cmd :: rest) st resp vac =
      (let d := dispatchCommand env txn cmd st resp vac
       let out := runCommands env txn rest d.st d.resp d.vacuumRequested
       { out with dispatched := out.dispatched + 1 }) := by
  simp [runCommands, h]

/-- The loop when the head command fails: it stops with that status after
dispatching exactly one command. -/
theorem runCommands_cons_fail (env : Env) (txn : DBTransaction)
    (cmd : DBCommand) (rest : List DBCommand) (st : ConnState)
    (resp : DBCommandResponse) (vac : Bool)
    (h : (dispatchCommand env txn cmd st resp vac).status ≠ Status.RESPONSE_OK) :
    runCommands env txn (cmd :: rest) st resp vac =
      (let d := dispatchCommand env txn cmd st resp vac
       ⟨d.status, d.st, d.resp, d.vacuumRequested, 1⟩) := by
  simp [runCommands, h]

/-- A loop run that ends Ok dispatched every command. -/
theorem runCommands_ok_dispatched (env : Env) (txn : DBTransaction) :
    ∀ (cmds : List DBCommand) (st : ConnState) (resp : DBCommandResponse)
      (vac : Bool),
      (runCommands env txn cmds st resp vac).status = Status.RESPONSE_OK →
      (runCommands env txn cmds st resp vac).dispatched = cmds.length := by
  intro cmds
  induction cmds with
  | nil => intro st resp vac _; rfl
  | cons cmd rest ih =>
    intro st resp vac h
    by_cases hd : (dispatchCommand env txn cmd st resp vac).status =
        Status.RESPONSE_OK
    · rw [runCommands_cons_ok env txn cmd rest st resp vac hd] at h ⊢
      simp only [List.length_cons]
      have := ih (dispatchCommand env txn cmd st resp vac).st
        (dispatchCommand env txn cmd st resp vac).resp
        (dispatchCommand env txn cmd st resp vac).vacuumRequested
      simp at h ⊢
      exact this h
    · rw [runCommands_cons_fail env txn cmd rest st resp vac hd] at h
      exact absurd h hd

/-- Splitting the loop at an Ok prefix: running `pre ++ rest` first runs
`pre`, then continues with `rest` from the resulting state, and the
dispatched counter adds up. -/
theorem runCommands_append_ok (env : Env) (txn : DBTransaction)
    (rest : List DBCommand) :
    ∀ (pre : List DBCommand) (st : ConnState) (resp : DBCommandResponse)
      (vac : Bool),
      (runCommands env txn pre st resp vac).status = Status.RESPONSE_OK →
      runCommands env txn (pre ++ rest) st resp vac =
        (let o := runCommands env txn pre st resp vac
         let o2 := runCommands env txn rest o.st o.resp o.vacuumRequested
         ⟨o2.status, o2.st, o2.resp, o2.vacuumRequested,
           pre.length + o2.dispatched⟩) := by
  intro pre
  induction pre with
  | nil =>
    intro st resp vac _
    simp [runCommands_nil]
  | cons cmd pre1 ih =>
    intro st resp vac h
    by_cases hd : (dispatchCommand env txn cmd st resp vac).status =
        Status.RESPONSE_OK
    · rw [runCommands_cons_ok env txn cmd pre1 st resp vac hd] at h
      simp only [List.cons_append]
      rw [runCommands_cons_ok env txn cmd (pre1 ++ rest) st resp vac hd]
      simp only at h
      simp only [runCommands_cons_ok env txn cmd pre1 st resp vac hd]
      have := ih (dispatchCommand env txn cmd st resp vac).st
        (dispatchCommand env txn cmd st resp vac).resp
        (dispatchCommand env txn cmd st resp vac).vacuumRequested
      try simp at h
      rw [this h]
      simp only [List.length_cons]
      congr 1
      omega
    · rw [runCommands_cons_fail env txn cmd pre1 st resp vac hd] at h
      exact absurd h hd

/-! ### Path lemmas for RunTransaction (connection already open) -/

/-- The sole-CLOSE special case. -/
theorem runTransaction_sole_close (env : Env) (txn : DBTransaction)
    (st : ConnState) (r : DBCommandResponse)
    (hopen : st.dbOpen = true) (hsc : isSoleClose txn = true) :
    RunTransaction env txn st (some r) =
      ⟨{ st with dbOpen := false, metaAttached := false, init := false },
        some { r with status := Status.RESPONSE_OK }, 0, false, false, 0⟩ := by
  unfold RunTransaction
  simp [hopen, hsc]

/-- Begin failure: TRANSACTION_ERROR, nothing dispatched. -/
theorem runTransaction_begin_fail (env : Env) (txn : DBTransaction)
    (st : ConnState) (r : DBCommandResponse)
    (hopen : st.dbOpen = true) (hnsc : isSoleClose txn = false)
    (hbegin : env.beginOk = false) :
    RunTransaction env txn st (some r) =
      ⟨st, some { r with status := Status.TRANSACTION_ERROR },
        0, true, false, 0⟩ := by
  unfold RunTransaction
  simp [hopen, hnsc, hbegin]

/-- First command failure: roll back the durable state, report the failing
status, skip Commit and VACUUM. -/
theorem runTransaction_loop_fail (env : Env) (txn : DBTransaction)
    (st : ConnState) (r : DBCommandResponse)
    (hopen : st.dbOpen = true) (hnsc : isSoleClose txn = false)
    (hbegin : env.beginOk = true)
    (hfail : (runCommands env txn txn.commands st r false).status ≠
      Status.RESPONSE_OK) :
    RunTransaction env txn st (some r) =
      (let o := runCommands env txn txn.commands st r false
       ⟨{ o.st with db := st.db }, some { o.resp with status := o.status },
         o.dispatched, true, false, 0⟩) := by
  unfold RunTransaction
  simp [hopen, hnsc, hbegin, hfail]

/-- Commit failure after an all-Ok loop: TRANSACTION_ERROR, durable state
rolled back, no VACUUM. -/
theorem runTransaction_commit_fail (env : Env) (txn : DBTransaction)
    (st : ConnState) (r : DBCommandResponse)
    (hopen : st.dbOpen = true) (hnsc : isSoleClose txn = false)
    (hbegin : env.beginOk = true)
    (hok : (runCommands env txn txn.commands st r false).status =
      Status.RESPONSE_OK)
    (hcommit : env.commitOk = false) :
    RunTransaction env txn st (some r) =
      (let o := runCommands env txn txn.commands st r false
       ⟨{ o.st with db := st.db },
         some { o.resp with status := Status.TRANSACTION_ERROR },
         o.dispatched, true, true, 0⟩) := by
  unfold RunTransaction
  simp [hopen, hnsc, hbegin, hok, hcommit]

/-- Full success: all commands Ok, Commit Ok; the response keeps its
incoming status, and VACUUM runs exactly when it was requested. -/
theorem runTransaction_commit_ok (env : Env) (txn : DBTransaction)
    (st : ConnState) (r : DBCommandResponse)
    (hopen : st.dbOpen = true) (hnsc : isSoleClose txn = false)
    (hbegin : env.beginOk = true)
    (hok : (runCommands env txn txn.commands st r false).status =
      Status.RESPONSE_OK)
    (hcommit : env.commitOk = true) :
    RunTransaction env txn st (some r) =
      (let o := runCommands env txn txn.commands st r false
       ⟨o.st, some o.resp, o.dispatched, true, true,
         if o.vacuumRequested then 1 else 0⟩) := by
  unfold RunTransaction
  by_cases hv : (runCommands env txn txn.commands st r false).vacuumRequested <;>
    simp [hopen, hnsc, hbegin, hok, hcommit, hv]

/-- Outside the sole-CLOSE special case (with the connection open),
`Transaction::Begin` is always invoked. -/
theorem runTransaction_beginTried (env : Env) (txn : DBTransaction)
    (st : ConnState) (r : DBCommandResponse)
    (hopen : st.dbOpen = true) (hnsc : isSoleClose txn = false) :
    (RunTransaction env txn st (some r)).beginTried = true := by
  by_cases hb : env.beginOk = true
  · by_cases hs : (runCommands env txn txn.commands st r false).status =
        Status.RESPONSE_OK
    · by_cases hc : env.commitOk = true
      · rw [runTransaction_commit_ok env txn st r hopen hnsc hb hs hc]
      · rw [runTransaction_commit_fail env txn st r hopen hnsc hb hs
          (by simp at hc; exact hc)]
    · rw [runTransaction_loop_fail env txn st r hopen hnsc hb hs]
  · rw [runTransaction_begin_fail env txn st r hopen hnsc
      (by simp at hb; exact hb)]

/-- The loop never produces RESPONSE_ERROR as its status. -/
theorem runCommands_status_ne_response_error (env : Env) (txn : DBTransaction) :
    ∀ (cmds : List DBCommand) (st : ConnState) (r : DBCommandResponse)
      (vac : Bool),
      (runCommands env txn cmds st r vac).status ≠ Status.RESPONSE_ERROR := by
  intro cmds
  induction cmds with
  | nil =>
    intro st r vac
    rw [runCommands_nil]
    exact (by decide : Status.RESPONSE_OK ≠ Status.RESPONSE_ERROR)
  | cons c rest ih =>
    intro st r vac
    by_cases hd : (dispatchCommand env txn c st r vac).status =
        Status.RESPONSE_OK
    · rw [runCommands_cons_ok env txn c rest st r vac hd]
      exact ih _ _ _
    · rw [runCommands_cons_fail env txn c rest st r vac hd]
      exact dispatch_status_ne_response_error env txn c st r vac

/-- The loop never changes the status field of the response object. -/
theorem runCommands_resp_status (env : Env) (txn : DBTransaction) :
    ∀ (cmds : List DBCommand) (st : ConnState) (r : DBCommandResponse)
      (vac : Bool),
      (runCommands env txn cmds st r vac).resp.status = r.status := by
  intro cmds
  induction cmds with
  | nil => intro st r vac; rw [runCommands_nil]
  | cons c rest ih =>
    intro st r vac
    by_cases hd : (dispatchCommand env txn c st r vac).status =
        Status.RESPONSE_OK
    · rw [runCommands_cons_ok env txn c rest st r vac hd]
      have := ih (dispatchCommand env txn c st r vac).st
        (dispatchCommand env txn c st r vac).resp
        (dispatchCommand env txn c st r vac).vacuumRequested
      simp only []
      rw [this, dispatch_resp_status]
    · rw [runCommands_cons_fail env txn c rest st r vac hd]
      simp only []
      rw [dispatch_resp_status]

/-- Generic shape of a batch whose first failure is at position
`pre.length`: the prefix runs Ok, the failing command's status is reported,
the durable database state is rolled back to its pre-call value, exactly
`pre.length + 1` commands were dispatched, and neither Commit nor VACUUM
runs. -/
theorem runTransaction_fail_at (env : Env) (txn : DBTransaction)
    (st : ConnState) (r : DBCommandResponse) (pre : List DBCommand)
    (c : DBCommand) (post : List DBCommand) (o : LoopOut) (d : DispatchOut)
    (hcmds : txn.commands = pre ++ c :: post)
    (hopen : st.dbOpen = true) (hnsc : isSoleClose txn = false)
    (hbegin : env.beginOk = true)
    (ho : runCommands env txn pre st r false = o)
    (hpre : o.status = Status.RESPONSE_OK)
    (hd : dispatchCommand env txn c o.st o.resp o.vacuumRequested = d)
    (hfail : d.status ≠ Status.RESPONSE_OK) :
    RunTransaction env txn st (some r) =
      ⟨{ d.st with db := st.db }, some { d.resp with status := d.status },
        pre.length + 1, true, false, 0⟩ := by
  have hpre1 : (runCommands env txn pre st r false).status =
      Status.RESPONSE_OK := by rw [ho]; exact hpre
  have hsplit := runCommands_append_ok env txn (c :: post) pre st r false hpre1
  have hcons := runCommands_cons_fail env txn c post o.st o.resp
    o.vacuumRequested (by rw [hd]; exact hfail)
  have hloop : runCommands env txn txn.commands st r false =
      ⟨d.status, d.st, d.resp, d.vacuumRequested, pre.length + 1⟩ := by
    rw [hcmds, hsplit]
    simp only [ho]
    rw [hcons, hd]
  have hst : (runCommands env txn txn.commands st r false).status ≠
      Status.RESPONSE_OK := by rw [hloop]; exact hfail
  rw [runTransaction_loop_fail env txn st r hopen hnsc hbegin hst]
  simp only [hloop]

/-- Opening the database on demand: running a transaction on a closed
connection (when Open succeeds) behaves as on the opened connection. -/
theorem runTransaction_opens (env : Env) (txn : DBTransaction)
    (st : ConnState) (r : DBCommandResponse)
    (h : st.dbOpen = false) (ho : env.openOk = true) :
    RunTransaction env txn st (some r) =
      RunTransaction env txn { st with dbOpen := true } (some r) := by
  unfold RunTransaction
  simp [h, ho]

/-- Open failure: INITIALIZATION_ERROR, nothing else happens. -/
theorem runTransaction_open_fail (env : Env) (txn : DBTransaction)
    (st : ConnState) (r : DBCommandResponse)
    (h : st.dbOpen = false) (ho : env.openOk = false) :
    RunTransaction env txn st (some r) =
      ⟨st, some { r with status := Status.INITIALIZATION_ERROR },
        0, false, false, 0⟩ := by
  unfold RunTransaction
  simp [h, ho]

/-- With the connection open and a response whose incoming status is not
RESPONSE_ERROR, the response returned by RunTransaction never carries
RESPONSE_ERROR. -/
theorem runTransaction_resp_status_ne (env : Env) (txn : DBTransaction)
    (st : ConnState) (r : DBCommandResponse) (hopen : st.dbOpen = true)
    (hr : r.status ≠ Status.RESPONSE_ERROR) :
    ∀ out_r : DBCommandResponse,
      (RunTransaction env txn st (some r)).resp = some out_r →
      out_r.status ≠ Status.RESPONSE_ERROR := by
  intro out_r hout
  by_cases hsc : isSoleClose txn = true
  · rw [runTransaction_sole_close env txn st r hopen hsc] at hout
    simp at hout
    rw [← hout]
    exact (by decide : Status.RESPONSE_OK ≠ Status.RESPONSE_ERROR)
  · have hnsc : isSoleClose txn = false := by simp at hsc; exact hsc
    by_cases hb : env.beginOk = true
    · by_cases hs : (runCommands env txn txn.commands st r false).status =
          Status.RESPONSE_OK
      · by_cases hc : env.commitOk = true
        · rw [runTransaction_commit_ok env txn st r hopen hnsc hb hs hc]
            at hout
          simp only [] at hout
          simp at hout
          rw [← hout, runCommands_resp_status]
          exact hr
        · rw [runTransaction_commit_fail env txn st r hopen hnsc hb hs
            (by simp at hc; exact hc)] at hout
          simp only [] at hout
          simp at hout
          rw [← hout]
          exact (by decide : Status.TRANSACTION_ERROR ≠ Status.RESPONSE_ERROR)
      · rw [runTransaction_loop_fail env txn st r hopen hnsc hb hs] at hout
        simp only [] at hout
        simp at hout
        rw [← hout]
        exact runCommands_status_ne_response_error env txn txn.commands st r
          false
    · rw [runTransaction_begin_fail env txn st r hopen hnsc
        (by simp at hb; exact hb)] at hout
      simp at hout
      rw [← hout]
      exact (by decide : Status.TRANSACTION_ERROR ≠ Status.RESPONSE_ERROR)

/-- A batch with at least two commands is never the sole-CLOSE special
case. -/
theorem isSoleClose_false_of_two (txn : DBTransaction)
    (h : 2 ≤ txn.commands.length) : isSoleClose txn = false := by
  unfold isSoleClose
  cases hc : txn.commands with
  | nil => rfl
  | cons a tl =>
    cases tl with
    | nil => rw [hc] at h; simp at h
    | cons b tl2 => rfl

/-- A CLOSE command reaching the dispatch switch reports COMMAND_ERROR and
changes nothing. -/
theorem dispatch_close (env : Env) (txn : DBTransaction) (cmd : DBCommand)
    (st : ConnState) (r : DBCommandResponse) (vac : Bool)
    (h : cmd.type = CommandType.CLOSE) :
    dispatchCommand env txn cmd st r vac =
      ⟨Status.COMMAND_ERROR, st, r, vac⟩ := by
  unfold dispatchCommand
  rw [h]

/-! ### Claim theorems -/

/-- C2: for every batch processed through the transaction wrapper (not the
sole-Close special case), if a command fails — the prefix `pre` dispatches
Ok (ending in loop output `o`) and the next command `c` dispatches with a
non-Ok status (`d.status`) — then the durable database state after the call
equals the state before the call (rollback), that first failing status
becomes the batch status, only `pre.length + 1` commands were dispatched
(nothing after the failing one), and no VACUUM runs. -/
theorem batch_rolls_back_on_first_failing_command (env : Env)
    (txn : DBTransaction) (st : ConnState) (r : DBCommandResponse)
    (pre : List DBCommand) (c : DBCommand) (post : List DBCommand)
    (o : LoopOut) (d : DispatchOut)
    (hcmds : txn.commands = pre ++ c :: post)
    (hopen : st.dbOpen = true) (hnsc : isSoleClose txn = false)
    (hbegin : env.beginOk = true)
    (ho : runCommands env txn pre st r false = o)
    (hpre : o.status = Status.RESPONSE_OK)
    (hd : dispatchCommand env txn c o.st o.resp o.vacuumRequested = d)
    (hfail : d.status ≠ Status.RESPONSE_OK) :
    (RunTransaction env txn st (some r)).st.db = st.db ∧
    (RunTransaction env txn st (some r)).resp =
      some { d.resp with status := d.status } ∧
    (RunTransaction env txn st (some r)).dispatched = pre.length + 1 ∧
    (RunTransaction env txn st (some r)).vacuumRuns = 0 := by
  rw [runTransaction_fail_at env txn st r pre c post o d hcmds hopen hnsc
    hbegin ho hpre hd hfail]
  exact ⟨rfl, rfl, rfl, rfl⟩

/-- C3: a READ, EXECUTE, RUN or MIGRATE command dispatched while
`initialized_` is false gets per-command status INITIALIZATION_ERROR with no
effect, so the batch reports INITIALIZATION_ERROR and the durable database
state is rolled back to its pre-call value (no writes are durably
applied). -/
theorem uninitialized_command_reports_initialization_error (env : Env)
    (txn : DBTransaction) (st : ConnState) (r : DBCommandResponse)
    (pre : List DBCommand) (c : DBCommand) (post : List DBCommand)
    (o : LoopOut)
    (hcmds : txn.commands = pre ++ c :: post)
    (hopen : st.dbOpen = true) (hnsc : isSoleClose txn = false)
    (hbegin : env.beginOk = true)
    (ho : runCommands env txn pre st r false = o)
    (hpre : o.status = Status.RESPONSE_OK)
    (huninit : o.st.init = false)
    (htype : c.type = CommandType.READ ∨ c.type = CommandType.EXECUTE ∨
      c.type = CommandType.RUN ∨ c.type = CommandType.MIGRATE) :
    dispatchCommand env txn c o.st o.resp o.vacuumRequested =
      ⟨Status.INITIALIZATION_ERROR, o.st, o.resp, o.vacuumRequested⟩ ∧
    (RunTransaction env txn st (some r)).resp =
      some { o.resp with status := Status.INITIALIZATION_ERROR } ∧
    (RunTransaction env txn st (some r)).st.db = st.db := by
  have hdd := dispatch_uninitialized env txn c o.st o.resp o.vacuumRequested
    htype huninit
  have hrun := runTransaction_fail_at env txn st r pre c post o
    ⟨Status.INITIALIZATION_ERROR, o.st, o.resp, o.vacuumRequested⟩
    hcmds hopen hnsc hbegin ho hpre hdd
    (by exact (by decide :
      Status.INITIALIZATION_ERROR ≠ Status.RESPONSE_OK))
  rw [hrun]
  exact ⟨hdd, rfl, rfl⟩

/-- C5: in a batch containing a CLOSE command together with at least one
other command, the CLOSE is not executed as a close: when the loop reaches
it (the prefix dispatched Ok) its per-command status is COMMAND_ERROR, the
transaction is rolled back (the durable database state equals its pre-call
value), Commit is never invoked, and COMMAND_ERROR is reported. -/
theorem close_not_alone_reports_command_error (env : Env)
    (txn : DBTransaction) (st : ConnState) (r : DBCommandResponse)
    (pre : List DBCommand) (c : DBCommand) (post : List DBCommand)
    (o : LoopOut)
    (hcmds : txn.commands = pre ++ c :: post)
    (hothers : pre ≠ [] ∨ post ≠ [])
    (hclose : c.type = CommandType.CLOSE)
    (hopen : st.dbOpen = true) (hbegin : env.beginOk = true)
    (ho : runCommands env txn pre st r false = o)
    (hpre : o.status = Status.RESPONSE_OK) :
    dispatchCommand env txn c o.st o.resp o.vacuumRequested =
      ⟨Status.COMMAND_ERROR, o.st, o.resp, o.vacuumRequested⟩ ∧
    (RunTransaction env txn st (some r)).resp =
      some { o.resp with status := Status.COMMAND_ERROR } ∧
    (RunTransaction env txn st (some r)).st.db = st.db ∧
    (RunTransaction env txn st (some r)).commitTried = false := by
  have hlen : 2 ≤ txn.commands.length := by
    rw [hcmds]
    rcases hothers with h1 | h1
    · have := List.length_pos.mpr h1
      simp [List.length_append]
      omega
    · have := List.length_pos.mpr h1
      simp [List.length_append]
      omega
  have hnsc := isSoleClose_false_of_two txn hlen
  have hdd := dispatch_close env txn c o.st o.resp o.vacuumRequested hclose
  have hrun := runTransaction_fail_at env txn st r pre c post o
    ⟨Status.COMMAND_ERROR, o.st, o.resp, o.vacuumRequested⟩
    hcmds hopen hnsc hbegin ho hpre hdd
    (by exact (by decide : Status.COMMAND_ERROR ≠ Status.RESPONSE_OK))
  rw [hrun]
  exact ⟨hdd, rfl, rfl, rfl⟩

/-- C4: with the connection open, RunTransaction takes the close path —
closing the connection, resetting the meta table object, marking the
connection uninitialized, reporting Ok, dispatching no command and invoking
neither Begin nor Commit nor VACUUM — if and only if the batch is exactly
one CLOSE command. -/
theorem sole_close_special_case_iff (env : Env) (txn : DBTransaction)
    (st : ConnState) (r : DBCommandResponse) (hopen : st.dbOpen = true) :
    (RunTransaction env txn st (some r) =
      ⟨{ st with dbOpen := false, metaAttached := false, init := false },
        some { r with status := Status.RESPONSE_OK }, 0, false, false, 0⟩) ↔
    isSoleClose txn = true := by
  constructor
  · intro h
    by_contra hn
    have hnsc : isSoleClose txn = false := by simp at hn; exact hn
    have hb := runTransaction_beginTried env txn st r hopen hnsc
    rw [h] at hb
    simp at hb
  · intro h
    exact runTransaction_sole_close env txn st r hopen h

/-- C8: with the connection open and outside the sole-CLOSE case, a Begin
failure yields batch status TRANSACTION_ERROR with zero commands dispatched,
and a Commit failure after an all-Ok loop likewise yields
TRANSACTION_ERROR. -/
theorem begin_or_commit_failure_is_transaction_error (env : Env)
    (txn : DBTransaction) (st : ConnState) (r : DBCommandResponse)
    (hopen : st.dbOpen = true) (hnsc : isSoleClose txn = false) :
    (env.beginOk = false →
      RunTransaction env txn st (some r) =
        ⟨st, some { r with status := Status.TRANSACTION_ERROR },
          0, true, false, 0⟩) ∧
    (env.beginOk = true →
      (runCommands env txn txn.commands st r false).status =
        Status.RESPONSE_OK →
      env.commitOk = false →
      (RunTransaction env txn st (some r)).resp =
        some { (runCommands env txn txn.commands st r false).resp with
          status := Status.TRANSACTION_ERROR } ∧
      (RunTransaction env txn st (some r)).st.db = st.db) := by
  constructor
  · intro hb
    exact runTransaction_begin_fail env txn st r hopen hnsc hb
  · intro hb hok hc
    rw [runTransaction_commit_fail env txn st r hopen hnsc hb hok hc]
    exact ⟨rfl, rfl⟩

/-- C1 (amended): a Transaction consisting of an Initialize command run
against a brand-new database (meta table absent, connection not yet
initialized) creates the meta table seeded with the Transaction's version
and compatible_version, but the scalar result reported to the caller is 0
(no prior version), not the seeded version: the code reads the stored
version back only when the meta table existed before `MetaTable::Init`. -/
theorem fresh_db_seeds_meta_table_reports_zero (env : Env)
    (txn : DBTransaction) (st : ConnState) (r : DBCommandResponse)
    (c : DBCommand)
    (hcmds : txn.commands = [c]) (hty : c.type = CommandType.INITIALIZE)
    (hopen : st.dbOpen = true) (hfresh : st.db.metaTable = none)
    (hinit : st.init = false) (hmi : env.metaInitOk = true)
    (hbegin : env.beginOk = true) (hcommit : env.commitOk = true) :
    RunTransaction env txn st (some r) =
      ⟨{ st with
          db := { st.db with
            metaTable := some (txn.version, txn.compatible_version) },
          init := true, metaAttached := true, listener := true },
        some ⟨r.status,
          some (DBCommandResult.value (DBValue.int_value 0))⟩,
        1, true, true, 0⟩ := by
  have hnsc : isSoleClose txn = false := by
    unfold isSoleClose
    rw [hcmds]
    simp [hty]
  have hd : dispatchCommand env txn c st r false =
      ⟨Status.RESPONSE_OK,
        { st with
          db := { st.db with
            metaTable := some (txn.version, txn.compatible_version) },
          init := true, metaAttached := true, listener := true },
        ⟨r.status,
          some (DBCommandResult.value (DBValue.int_value 0))⟩,
        false⟩ := by
    unfold dispatchCommand
    rw [hty]
    simp only []
    unfold Initialize MetaTableInit DoesTableExist
    simp [hinit, hfresh, hmi]
  have hloop : runCommands env txn txn.commands st r false =
      ⟨Status.RESPONSE_OK,
        { st with
          db := { st.db with
            metaTable := some (txn.version, txn.compatible_version) },
          init := true, metaAttached := true, listener := true },
        ⟨r.status,
          some (DBCommandResult.value (DBValue.int_value 0))⟩,
        false, 1⟩ := by
    rw [hcmds]
    rw [runCommands_cons_ok env txn c [] st r false (by rw [hd])]
    simp only [hd]
    rw [runCommands_nil]
  rw [runTransaction_commit_ok env txn st r hopen hnsc hbegin
    (by rw [hloop]) hcommit]
  simp only [hloop]
  simp

/-- C6: Initialize is idempotent on an already-initialized connection: any
Initialize call with `initialized_` already true performs no state or schema
change, skips table creation, and reports the stored version from the meta
table; in particular two such calls (the second running from the unchanged
state the first returned) both report the same stored version. -/
theorem second_initialize_reports_stored_version (env : Env)
    (v1 cv1 v2 cv2 : Int) (st : ConnState) (r1 r2 : DBCommandResponse)
    (hinit : st.init = true) :
    Initialize env v1 cv1 st (some r1) =
      (Status.RESPONSE_OK, st, some ⟨r1.status,
        some (DBCommandResult.value
          (DBValue.int_value (GetVersionNumber st.db)))⟩) ∧
    Initialize env v2 cv2 st (some r2) =
      (Status.RESPONSE_OK, st, some ⟨r2.status,
        some (DBCommandResult.value
          (DBValue.int_value (GetVersionNumber st.db)))⟩) := by
  unfold Initialize
  simp [hinit]

/-- C9: Read on an initialized connection with a non-null command and
response returns Ok with one record per row yielded by statement stepping,
in order (a stepping error merely ends the row list); and in inferred mode
(empty record_bindings) each column converts by its runtime type:
integer to Int64, float to Double, text to String, blob to String, null to
Null. -/
theorem read_collects_records_in_order (env : Env) (cmd : DBCommand)
    (st : ConnState) (r : DBCommandResponse) (hinit : st.init = true) :
    Read env (some cmd) st (some r) =
      (Status.RESPONSE_OK, st, some ⟨r.status,
        some (DBCommandResult.records
          ((env.readStmt cmd.command cmd.bindings st.db).map
            (fun row => CreateRecord env row cmd.record_bindings)))⟩) ∧
    (∀ row : List SqlValue, CreateRecord env row [] =
      row.map (fun v =>
        match v with
        | SqlValue.integer i => DBValue.int64_value i
        | SqlValue.float d => DBValue.double_value d
        | SqlValue.text s => DBValue.string_value s
        | SqlValue.blob b => DBValue.string_value b
        | SqlValue.null => DBValue.null_value 0)) := by
  constructor
  · unfold Read
    simp [hinit]
  · intro row
    unfold CreateRecord
    simp

/-- C10: RunTransaction called with a null response returns immediately —
state untouched, nothing dispatched, no Begin/Commit, no VACUUM; through
RunTransaction the Initialize method always receives a non-null response,
where it never reports RESPONSE_ERROR (its null-response branch is
unreachable); and RunTransaction itself never turns a non-RESPONSE_ERROR
response into one. -/
theorem null_response_returns_immediately (env : Env) (txn : DBTransaction)
    (st : ConnState) :
    RunTransaction env txn st none = ⟨st, none, 0, false, false, 0⟩ ∧
    (∀ (v cv : Int) (st1 : ConnState) (r : DBCommandResponse),
      ( Initialize env v cv st1 (some r)).1 ≠ Status.RESPONSE_ERROR) ∧
    (∀ (r out_r : DBCommandResponse),
      r.status ≠ Status.RESPONSE_ERROR →
      (RunTransaction env txn st (some r)).resp = some out_r →
      out_r.status ≠ Status.RESPONSE_ERROR) := by
  refine ⟨rfl, fun v cv st1 r =>
    Initialize_status_ne_response_error env v cv st1 r, ?_⟩
  intro r out_r hr hout
  by_cases hop : st.dbOpen = true
  · exact runTransaction_resp_status_ne env txn st r hop hr out_r hout
  · have hop1 : st.dbOpen = false := by simp at hop; exact hop
    by_cases hok : env.openOk = true
    · rw [runTransaction_opens env txn st r hop1 hok] at hout
      exact runTransaction_resp_status_ne env txn
        { st with dbOpen := true } r rfl hr out_r hout
    · have hok1 : env.openOk = false := by simp at hok; exact hok
      rw [runTransaction_open_fail env txn st r hop1 hok1] at hout
      simp at hout
      rw [← hout]
      exact (by decide :
        Status.INITIALIZATION_ERROR ≠ Status.RESPONSE_ERROR)

/-! ### The VACUUM outcome does not flow into any observable output -/

/-- createFields ignores the vacuum outcome field of the oracle. -/
theorem createFields_vacuumOk (env : Env) (b : Bool) (row : List SqlValue) :
    ∀ (bs : List RecordBindingType) (col : Nat),
      createFields { env with vacuumOk := b } row bs col =
        createFields env row bs col := by
  intro bs
  induction bs with
  | nil => intro col; rfl
  | cons hd tl ih =>
    intro col
    unfold createFields
    rw [ih]

/-- CreateRecord ignores the vacuum outcome field of the oracle. -/
theorem CreateRecord_vacuumOk (env : Env) (b : Bool) (row : List SqlValue)
    (bs : List RecordBindingType) :
    CreateRecord { env with vacuumOk := b } row bs =
      CreateRecord env row bs := by
  unfold CreateRecord
  rw [createFields_vacuumOk]

/-- Read ignores the vacuum outcome field of the oracle. -/
theorem Read_vacuumOk (env : Env) (b : Bool) (cmd : Option DBCommand)
    (st : ConnState) (r : Option DBCommandResponse) :
    Read { env with vacuumOk := b } cmd st r = Read env cmd st r := by
  unfold Read
  cases hinit : st.init
  · simp [hinit]
  · cases cmd with
    | none => simp [hinit]
    | some c =>
      cases r with
      | none => simp [hinit]
      | some rr => simp [hinit, CreateRecord_vacuumOk]

/-- The dispatch switch ignores the vacuum outcome field of the oracle. -/
theorem dispatchCommand_vacuumOk (env : Env) (b : Bool)
    (txn : DBTransaction) (cmd : DBCommand) (st : ConnState)
    (r : DBCommandResponse) (vac : Bool) :
    dispatchCommand { env with vacuumOk := b } txn cmd st r vac =
      dispatchCommand env txn cmd st r vac := by
  unfold dispatchCommand
  cases hty : cmd.type <;> simp only [] <;>
    first
      | rfl
      | rw [Read_vacuumOk]

/-- The command loop ignores the vacuum outcome field of the oracle. -/
theorem runCommands_vacuumOk (env : Env) (b : Bool) (txn : DBTransaction) :
    ∀ (cmds : List DBCommand) (st : ConnState) (r : DBCommandResponse)
      (vac : Bool),
      runCommands { env with vacuumOk := b } txn cmds st r vac =
        runCommands env txn cmds st r vac := by
  intro cmds
  induction cmds with
  | nil => intro st r vac; rfl
  | cons c rest ih =>
    intro st r vac
    unfold runCommands
    simp only [dispatchCommand_vacuumOk, ih]

/-- RunTransaction ignores the vacuum outcome field of the oracle: whether
the post-commit VACUUM succeeds or fails changes nothing the caller can
observe (the failure is only logged). -/
theorem RunTransaction_vacuumOk (env : Env) (b : Bool)
    (txn : DBTransaction) (st : ConnState)
    (resp : Option DBCommandResponse) :
    RunTransaction { env with vacuumOk := b } txn st resp =
      RunTransaction env txn st resp := by
  unfold RunTransaction
  cases resp with
  | none => rfl
  | some r => simp only [runCommands_vacuumOk]

/-- Which paths execute VACUUM: exactly the fully committed batches that
requested it. -/
theorem runTransaction_vacuumRuns_cases (env : Env) (txn : DBTransaction)
    (st : ConnState) (r : DBCommandResponse) (hopen : st.dbOpen = true) :
    (RunTransaction env txn st (some r)).vacuumRuns =
      if env.beginOk = true ∧ isSoleClose txn = false ∧
          (runCommands env txn txn.commands st r false).status =
            Status.RESPONSE_OK ∧
          env.commitOk = true ∧
          (runCommands env txn txn.commands st r false).vacuumRequested = true
      then 1 else 0 := by
  by_cases hsc : isSoleClose txn = true
  · rw [runTransaction_sole_close env txn st r hopen hsc]
    simp [hsc]
  · have hnsc : isSoleClose txn = false := by simp at hsc; exact hsc
    by_cases hb : env.beginOk = true
    · by_cases hs : (runCommands env txn txn.commands st r false).status =
          Status.RESPONSE_OK
      · by_cases hc : env.commitOk = true
        · rw [runTransaction_commit_ok env txn st r hopen hnsc hb hs hc]
          by_cases hv : (runCommands env txn txn.commands st r
              false).vacuumRequested = true
          · simp [hnsc, hb, hs, hc, hv]
          · have hv1 : (runCommands env txn txn.commands st r
                false).vacuumRequested = false := by simp at hv; exact hv
            simp [hnsc, hb, hs, hc, hv1]
        · rw [runTransaction_commit_fail env txn st r hopen hnsc hb hs
            (by simp at hc; exact hc)]
          simp [hc]
      · rw [runTransaction_loop_fail env txn st r hopen hnsc hb hs]
        simp [hs]
    · rw [runTransaction_begin_fail env txn st r hopen hnsc
        (by simp at hb; exact hb)]
      simp [hb]

/-- C7: a VACUUM command inside the loop only sets the flag and yields Ok;
VACUUM executes at most once per batch and only after a successful Commit of
an all-Ok loop (then the response is exactly the committed one, status
untouched); if any command fails or the Commit fails, VACUUM never runs; and
the VACUUM outcome itself (success or logged failure) changes nothing the
caller observes. -/
theorem vacuum_deferred_and_post_commit (env : Env) (txn : DBTransaction)
    (st : ConnState) (r : DBCommandResponse) (hopen : st.dbOpen = true) :
    (∀ (cmd : DBCommand) (st1 : ConnState) (r1 : DBCommandResponse)
      (v : Bool), cmd.type = CommandType.VACUUM →
      dispatchCommand env txn cmd st1 r1 v =
        ⟨Status.RESPONSE_OK, st1, r1, true⟩) ∧
    (RunTransaction env txn st (some r)).vacuumRuns ≤ 1 ∧
    ((RunTransaction env txn st (some r)).vacuumRuns = 1 →
      env.commitOk = true ∧
      (runCommands env txn txn.commands st r false).status =
        Status.RESPONSE_OK ∧
      (RunTransaction env txn st (some r)).commitTried = true ∧
      (RunTransaction env txn st (some r)).resp =
        some (runCommands env txn txn.commands st r false).resp) ∧
    ((runCommands env txn txn.commands st r false).status ≠
        Status.RESPONSE_OK →
      (RunTransaction env txn st (some r)).vacuumRuns = 0) ∧
    (env.commitOk = false →
      (RunTransaction env txn st (some r)).vacuumRuns = 0) ∧
    RunTransaction { env with vacuumOk := false } txn st (some r) =
      RunTransaction { env with vacuumOk := true } txn st (some r) := by
  have hcases := runTransaction_vacuumRuns_cases env txn st r hopen
  refine ⟨?_, ?_, ?_, ?_, ?_, ?_⟩
  · intro cmd st1 r1 v hty
    unfold dispatchCommand
    rw [hty]
  · rw [hcases]
    split <;> omega
  · intro h1
    rw [hcases] at h1
    by_cases hcond : env.beginOk = true ∧ isSoleClose txn = false ∧
        (runCommands env txn txn.commands st r false).status =
          Status.RESPONSE_OK ∧
        env.commitOk = true ∧
        (runCommands env txn txn.commands st r false).vacuumRequested = true
    · obtain ⟨hb, hnsc, hs, hc, hv⟩ := hcond
      rw [runTransaction_commit_ok env txn st r hopen hnsc hb hs hc]
      exact ⟨hc, hs, rfl, rfl⟩
    · rw [if_neg hcond] at h1
      simp at h1
  · intro hfail
    rw [hcases]
    rw [if_neg]
    intro hcond
    exact hfail hcond.2.2.1
  · intro hc
    rw [hcases]
    rw [if_neg]
    intro hcond
    rw [hcond.2.2.2.1] at hc
    simp at hc
  · rw [RunTransaction_vacuumOk env false txn st (some r),
      RunTransaction_vacuumOk env true txn st (some r)]

/-! ### Counterexample and witnesses on concrete inputs -/

/-- C1 counterexample: Initialize with version 1, compatible version 1, on a
brand-new database seeds the meta table with (1, 1) but reports scalar 0 to
the caller — not the seeded version 1 the claim asserts. -/
theorem c1_counterexample :
    (RunTransaction envW ⟨1, 1, [cmdInitW]⟩ stW (some respW)).st.db.metaTable =
      some (1, 1) ∧
    (RunTransaction envW ⟨1, 1, [cmdInitW]⟩ stW (some respW)).resp =
      some ⟨Status.RESPONSE_OK,
        some (DBCommandResult.value (DBValue.int_value 0))⟩ ∧
    DBValue.int_value 0 ≠ DBValue.int_value 1 :=
  ⟨by decide, by decide, by decide⟩

/-- C1 witness: the amended fresh-database bootstrap theorem evaluated on a
concrete brand-new database. -/
theorem c1_witness :
    (⟨1, 1, [cmdInitW]⟩ : DBTransaction).commands = [cmdInitW] ∧
    cmdInitW.type = CommandType.INITIALIZE ∧
    stW.dbOpen = true ∧ stW.db.metaTable = none ∧ stW.init = false ∧
    envW.metaInitOk = true ∧ envW.beginOk = true ∧ envW.commitOk = true ∧
    RunTransaction envW ⟨1, 1, [cmdInitW]⟩ stW (some respW) =
      ⟨{ stW with
          db := { stW.db with metaTable := some (1, 1) },
          init := true, metaAttached := true, listener := true },
        some ⟨respW.status,
          some (DBCommandResult.value (DBValue.int_value 0))⟩,
        1, true, true, 0⟩ :=
  ⟨rfl, rfl, rfl, rfl, rfl, rfl, rfl, rfl,
    fresh_db_seeds_meta_table_reports_zero envW ⟨1, 1, [cmdInitW]⟩ stW respW
      cmdInitW rfl rfl rfl rfl rfl rfl rfl rfl⟩

/-- C2 witness: a three-command batch whose middle command fails (RUN on an
uninitialized connection) rolls back, reports the failing status, and
dispatches only two commands. -/
theorem c2_witness :
    (⟨0, 0, [cmdVacuumW, cmdRunW, cmdVacuumW]⟩ : DBTransaction).commands =
      [cmdVacuumW] ++ cmdRunW :: [cmdVacuumW] ∧
    stW.dbOpen = true ∧
    isSoleClose ⟨0, 0, [cmdVacuumW, cmdRunW, cmdVacuumW]⟩ = false ∧
    envW.beginOk = true ∧
    runCommands envW ⟨0, 0, [cmdVacuumW, cmdRunW, cmdVacuumW]⟩ [cmdVacuumW]
      stW respW false = ⟨Status.RESPONSE_OK, stW, respW, true, 1⟩ ∧
    (⟨Status.RESPONSE_OK, stW, respW, true, 1⟩ : LoopOut).status =
      Status.RESPONSE_OK ∧
    dispatchCommand envW ⟨0, 0, [cmdVacuumW, cmdRunW, cmdVacuumW]⟩ cmdRunW
      stW respW true = ⟨Status.INITIALIZATION_ERROR, stW, respW, true⟩ ∧
    (⟨Status.INITIALIZATION_ERROR, stW, respW, true⟩ : DispatchOut).status ≠
      Status.RESPONSE_OK ∧
    ((RunTransaction envW ⟨0, 0, [cmdVacuumW, cmdRunW, cmdVacuumW]⟩ stW
        (some respW)).st.db = stW.db ∧
      (RunTransaction envW ⟨0, 0, [cmdVacuumW, cmdRunW, cmdVacuumW]⟩ stW
        (some respW)).resp =
        some ⟨Status.INITIALIZATION_ERROR, none⟩ ∧
      (RunTransaction envW ⟨0, 0, [cmdVacuumW, cmdRunW, cmdVacuumW]⟩ stW
        (some respW)).dispatched = 2 ∧
      (RunTransaction envW ⟨0, 0, [cmdVacuumW, cmdRunW, cmdVacuumW]⟩ stW
        (some respW)).vacuumRuns = 0) :=
  ⟨rfl, rfl, by decide, rfl, by decide, rfl, by decide, by decide,
    batch_rolls_back_on_first_failing_command envW
      ⟨0, 0, [cmdVacuumW, cmdRunW, cmdVacuumW]⟩ stW respW [cmdVacuumW]
      cmdRunW [cmdVacuumW] ⟨Status.RESPONSE_OK, stW, respW, true, 1⟩
      ⟨Status.INITIALIZATION_ERROR, stW, respW, true⟩ rfl rfl (by decide)
      rfl (by decide) rfl (by decide) (by decide)⟩

/-- C3 witness: a READ sent before any Initialize reports
INITIALIZATION_ERROR and leaves the durable database unchanged. -/
theorem c3_witness :
    (⟨0, 0, [cmdReadW]⟩ : DBTransaction).commands = [] ++ cmdReadW :: [] ∧
    stW.dbOpen = true ∧ isSoleClose ⟨0, 0, [cmdReadW]⟩ = false ∧
    envW.beginOk = true ∧
    runCommands envW ⟨0, 0, [cmdReadW]⟩ [] stW respW false =
      ⟨Status.RESPONSE_OK, stW, respW, false, 0⟩ ∧
    stW.init = false ∧ cmdReadW.type = CommandType.READ ∧
    (dispatchCommand envW ⟨0, 0, [cmdReadW]⟩ cmdReadW stW respW false =
        ⟨Status.INITIALIZATION_ERROR, stW, respW, false⟩ ∧
      (RunTransaction envW ⟨0, 0, [cmdReadW]⟩ stW (some respW)).resp =
        some ⟨Status.INITIALIZATION_ERROR, none⟩ ∧
      (RunTransaction envW ⟨0, 0, [cmdReadW]⟩ stW (some respW)).st.db =
        stW.db) :=
  ⟨rfl, rfl, by decide, rfl, rfl, rfl, rfl,
    uninitialized_command_reports_initialization_error envW
      ⟨0, 0, [cmdReadW]⟩ stW respW [] cmdReadW []
      ⟨Status.RESPONSE_OK, stW, respW, false, 0⟩ rfl rfl (by decide) rfl rfl
      rfl rfl (Or.inl rfl)⟩

/-- C4 witness: the close-path characterization evaluated on a concrete
open, initialized connection. -/
theorem c4_witness :
    stInitW.dbOpen = true ∧
    ((RunTransaction envW ⟨0, 0, [cmdCloseW]⟩ stInitW (some respW) =
        ⟨{ stInitW with
            dbOpen := false, metaAttached := false, init := false },
          some { respW with status := Status.RESPONSE_OK },
          0, false, false, 0⟩) ↔
      isSoleClose ⟨0, 0, [cmdCloseW]⟩ = true) :=
  ⟨rfl, sole_close_special_case_iff envW ⟨0, 0, [cmdCloseW]⟩ stInitW respW
    rfl⟩

/-- C5 witness: a batch of a VACUUM followed by a CLOSE reports
COMMAND_ERROR at the CLOSE and commits nothing. -/
theorem c5_witness :
    (⟨0, 0, [cmdVacuumW, cmdCloseW]⟩ : DBTransaction).commands =
      [cmdVacuumW] ++ cmdCloseW :: [] ∧
    ([cmdVacuumW] ≠ ([] : List DBCommand) ∨
      ([] : List DBCommand) ≠ ([] : List DBCommand)) ∧
    cmdCloseW.type = CommandType.CLOSE ∧
    stW.dbOpen = true ∧ envW.beginOk = true ∧
    runCommands envW ⟨0, 0, [cmdVacuumW, cmdCloseW]⟩ [cmdVacuumW] stW respW
      false = ⟨Status.RESPONSE_OK, stW, respW, true, 1⟩ ∧
    (dispatchCommand envW ⟨0, 0, [cmdVacuumW, cmdCloseW]⟩ cmdCloseW stW
        respW true = ⟨Status.COMMAND_ERROR, stW, respW, true⟩ ∧
      (RunTransaction envW ⟨0, 0, [cmdVacuumW, cmdCloseW]⟩ stW
        (some respW)).resp = some ⟨Status.COMMAND_ERROR, none⟩ ∧
      (RunTransaction envW ⟨0, 0, [cmdVacuumW, cmdCloseW]⟩ stW
        (some respW)).st.db = stW.db ∧
      (RunTransaction envW ⟨0, 0, [cmdVacuumW, cmdCloseW]⟩ stW
        (some respW)).commitTried = false) :=
  ⟨rfl, Or.inl (by decide), rfl, rfl, rfl, by decide,
    close_not_alone_reports_command_error envW ⟨0, 0, [cmdVacuumW, cmdCloseW]⟩
      stW respW [cmdVacuumW] cmdCloseW []
      ⟨Status.RESPONSE_OK, stW, respW, true, 1⟩ rfl (Or.inl (by decide)) rfl
      rfl rfl (by decide) rfl⟩

/-- C6 witness: on an already-initialized connection storing version 3, two
Initialize calls (with different supplied versions) both report 3 and change
nothing. -/
theorem c6_witness :
    stInitW.init = true ∧
    ( Initialize envW 4 4 stInitW (some respW) =
        (Status.RESPONSE_OK, stInitW, some ⟨respW.status,
          some (DBCommandResult.value (DBValue.int_value 3))⟩) ∧
      Initialize envW 5 5 stInitW (some respW) =
        (Status.RESPONSE_OK, stInitW, some ⟨respW.status,
          some (DBCommandResult.value (DBValue.int_value 3))⟩)) :=
  ⟨rfl, second_initialize_reports_stored_version envW 4 4 5 5 stInitW respW
    respW rfl⟩

/-- C7 witness: a committed batch holding a VACUUM command runs VACUUM once
post-commit; the VACUUM outcome changes nothing observable. -/
theorem c7_witness :
    stInitW.dbOpen = true ∧
    dispatchCommand envW ⟨0, 0, [cmdVacuumW]⟩ cmdVacuumW stInitW respW
      false = ⟨Status.RESPONSE_OK, stInitW, respW, true⟩ ∧
    (RunTransaction envW ⟨0, 0, [cmdVacuumW]⟩ stInitW
      (some respW)).vacuumRuns ≤ 1 ∧
    (envW.commitOk = true ∧
      (runCommands envW ⟨0, 0, [cmdVacuumW]⟩ [cmdVacuumW] stInitW respW
        false).status = Status.RESPONSE_OK ∧
      (RunTransaction envW ⟨0, 0, [cmdVacuumW]⟩ stInitW
        (some respW)).commitTried = true ∧
      (RunTransaction envW ⟨0, 0, [cmdVacuumW]⟩ stInitW (some respW)).resp =
        some (runCommands envW ⟨0, 0, [cmdVacuumW]⟩ [cmdVacuumW] stInitW
          respW false).resp) ∧
    RunTransaction { envW with vacuumOk := false } ⟨0, 0, [cmdVacuumW]⟩
        stInitW (some respW) =
      RunTransaction { envW with vacuumOk := true } ⟨0, 0, [cmdVacuumW]⟩
        stInitW (some respW) :=
  ⟨rfl,
    (vacuum_deferred_and_post_commit envW ⟨0, 0, [cmdVacuumW]⟩ stInitW respW
      rfl).1 cmdVacuumW stInitW respW false rfl,
    (vacuum_deferred_and_post_commit envW ⟨0, 0, [cmdVacuumW]⟩ stInitW respW
      rfl).2.1,
    (vacuum_deferred_and_post_commit envW ⟨0, 0, [cmdVacuumW]⟩ stInitW respW
      rfl).2.2.1 (by decide),
    (vacuum_deferred_and_post_commit envW ⟨0, 0, [cmdVacuumW]⟩ stInitW respW
      rfl).2.2.2.2.2⟩

/-- C8 witness: with a failing Begin, a one-command batch reports
TRANSACTION_ERROR with zero commands dispatched. -/
theorem c8_witness :
    stInitW.dbOpen = true ∧
    isSoleClose ⟨0, 0, [cmdRunW]⟩ = false ∧
    envBF.beginOk = false ∧
    RunTransaction envBF ⟨0, 0, [cmdRunW]⟩ stInitW (some respW) =
      ⟨stInitW, some ⟨Status.TRANSACTION_ERROR, none⟩, 0, true, false, 0⟩ :=
  ⟨rfl, by decide, rfl,
    (begin_or_commit_failure_is_transaction_error envBF ⟨0, 0, [cmdRunW]⟩
      stInitW respW rfl (by decide)).1 rfl⟩

/-- C9 witness: a concrete Read on an initialized connection collects the
stepped rows in order with inferred-mode conversion. -/
theorem c9_witness :
    stInitW.init = true ∧
    Read envW (some cmdReadW) stInitW (some respW) =
      (Status.RESPONSE_OK, stInitW, some ⟨Status.RESPONSE_OK,
        some (DBCommandResult.records
          [[DBValue.int64_value 7, DBValue.null_value 0]])⟩) ∧
    CreateRecord envW [SqlValue.integer 7, SqlValue.null] [] =
      [DBValue.int64_value 7, DBValue.null_value 0] :=
  ⟨rfl,
    (read_collects_records_in_order envW cmdReadW stInitW respW rfl).1,
    (read_collects_records_in_order envW cmdReadW stInitW respW rfl).2
      [SqlValue.integer 7, SqlValue.null]⟩

/-- C10 witness: the null-response behavior and the RESPONSE_ERROR
unreachability evaluated on concrete inputs. -/
theorem c10_witness :
    RunTransaction envW ⟨0, 0, [cmdVacuumW]⟩ stW none =
      ⟨stW, none, 0, false, false, 0⟩ ∧
    ( Initialize envW 1 1 stW (some respW)).1 ≠ Status.RESPONSE_ERROR ∧
    respW.status ≠ Status.RESPONSE_ERROR ∧
    (RunTransaction envW ⟨0, 0, [cmdVacuumW]⟩ stW (some respW)).resp =
      some respW ∧
    respW.status ≠ Status.RESPONSE_ERROR :=
  ⟨(null_response_returns_immediately envW ⟨0, 0, [cmdVacuumW]⟩ stW).1,
    (null_response_returns_immediately envW ⟨0, 0, [cmdVacuumW]⟩ stW).2.1
      1 1 stW respW,
    by decide, by decide,
    (null_response_returns_immediately envW ⟨0, 0, [cmdVacuumW]⟩ stW).2.2
      respW respW (by decide) (by decide)⟩

end Ledger
